import Mathlib

/-!
Shallow embedding of `src/main.py` (mkhaykin/pythonSyncConfig): an ETL
synchronisation configuration loader.  YAML documents are modelled by the
inductive `Value`; Python dictionaries by association lists with
first-match lookup; exceptions by `Except ConfigError`.  Float scalars are
not modelled (no behaviour under scrutiny involves them), and `pyRepr`
does not escape quote characters inside strings.
-/

/-- A parsed YAML scalar or collection, as produced by `yaml.safe_load`. -/
inductive Value where
  | str (s : String)
  | int (n : Int)
  | bool (b : Bool)
  | null
  | list (xs : List Value)
  | map (kvs : List (String × Value))

/-- A Python dict with string keys, as the YAML loader returns for mappings. -/
abbrev PyDict := List (String × Value)

mutual
/-- Python `repr` of a value (quote escaping inside strings omitted). -/
def pyRepr : Value → String
  | .str s => "'" ++ s ++ "'"
  | .int n => toString n
  | .bool true => "True"
  | .bool false => "False"
  | .null => "None"
  | .list xs => "[" ++ String.intercalate ", " (pyReprList xs) ++ "]"
  | .map kvs => "\x7b" ++ String.intercalate ", " (pyReprMap kvs) ++ "\x7d"

/-- Python `repr` of each element of a list. -/
def pyReprList : List Value → List String
  | [] => []
  | v :: vs => pyRepr v :: pyReprList vs

/-- Python `repr` of each key-value pair of a dict. -/
def pyReprMap : List (String × Value) → List String
  | [] => []
  | (k, v) :: kvs => ("'" ++ k ++ "': " ++ pyRepr v) :: pyReprMap kvs
end

/-- Python `str` of a value: identity on strings, `repr`-based otherwise. -/
def pyStr : Value → String
  | .str s => s
  | v => pyRepr v

/-- Python truthiness of a value (`bool(v)`). -/
def pyTruthy : Value → Bool
  | .str s => !(s == "")
  | .int n => !(n == 0)
  | .bool b => b
  | .null => false
  | .list xs => !xs.isEmpty
  | .map kvs => !kvs.isEmpty

/-- Python `str.lower()`: lowercases each character (source strings here
are ASCII, where Python and `Char.toLower` agree). -/
def pyLower (s : String) : String :=
  String.mk (s.data.map Char.toLower)

/-- Lookup in a Python dict: `d.get(k)`, first match wins. -/
def dictGet? : PyDict → String → Option Value
  | [], _ => none
  | (k', v) :: rest, k => if k = k' then some v else dictGet? rest k

/-- Whether `k in d` holds for a Python dict. -/
def hasKey (d : PyDict) (k : String) : Bool :=
  (dictGet? d k).isSome

/-- Whether every key of the dict belongs to the given list. -/
def onlyKeys (d : PyDict) (ks : List String) : Bool :=
  d.all fun kv => ks.contains kv.1

/-- Whether the value is a Python list (`isinstance(v, list)`). -/
def Value.isList : Value → Bool
  | .list _ => true
  | _ => false

/-- Whether the value is a Python dict (`isinstance(v, dict)`). -/
def Value.isMap : Value → Bool
  | .map _ => true
  | _ => false

/-- The underlying element list of a list value (`[]` otherwise). -/
def Value.asList : Value → List Value
  | .list xs => xs
  | _ => []

/-- The exceptions the loader can raise, tagged by kind. -/
inductive ConfigError where
  | missingField (key : String)
  | missingSection (msg : String)
  | invalidShape (field : String)
  | formatError (msg : String)
  | invalidEnvironment (msg : String)
  | fileNotFound (msg : String)
  | attributeError
  | typeError
deriving Repr, DecidableEq

/-- The `ENV` enumeration of deployment environments. -/
inductive ENV where
  | TEST
  | DEV
  | PROD
  | LOCAL
deriving Repr, DecidableEq

/-- The symbolic member name of an `ENV` value (`env.name`). -/
def ENV.name : ENV → String
  | .TEST => "TEST"
  | .DEV => "DEV"
  | .PROD => "PROD"
  | .LOCAL => "LOCAL"

/-- The textual value of an `ENV` member (`env.value`). -/
def ENV.value : ENV → String
  | .TEST => "test"
  | .DEV => "development"
  | .PROD => "production"
  | .LOCAL => "local"

/-- Iteration order of the `ENV` enum members. -/
def ENV.members : List ENV := [.TEST, .DEV, .PROD, .LOCAL]

/-- Case-insensitive lookup of an `ENV` member by its textual value
(`ENV.get_by_value`); raises `ValueError` when no member matches. -/
def ENV.get_by_value (env : String) : Except ConfigError ENV :=
  let e := pyLower env
  match ENV.members.find? (fun v => pyLower v.value == e) with
  | some v => .ok v
  | none => .error (.invalidEnvironment "нет такого значения")

/-- Connection parameters of one database endpoint (`SyncConfigDB`). -/
structure SyncConfigDB where
  host : String
  port : String
  database : String
  user : String
  password : String
deriving Repr, DecidableEq

/-- A table description (`SyncConfigTable`). -/
structure SyncConfigTable where
  schema : String
  table : String
  columns : List String
  pk : List String
deriving Repr, DecidableEq

/-- One source-to-destination table pair (`SyncConfigMapping`). -/
structure SyncConfigMapping where
  source : SyncConfigTable
  destination : SyncConfigTable
deriving Repr, DecidableEq

/-- The fully loaded configuration (the state an `ETLSyncConfig` instance
holds after `__init__` succeeds). -/
structure ETLSyncConfig where
  source : SyncConfigDB
  destination : SyncConfigDB
  mappings : List SyncConfigMapping
deriving Repr, DecidableEq

/-- Indexing `item[k]` on a dict: the value, or a `KeyError` naming `k`. -/
def required (d : PyDict) (k : String) : Except ConfigError Value :=
  match dictGet? d k with
  | some v => .ok v
  | none => .error (.missingField k)

/-- Viewing a value as a dict before calling `.get` on it; a non-dict
raises `AttributeError`. -/
def asMapping : Value → Except ConfigError PyDict
  | .map kvs => .ok kvs
  | _ => .error .attributeError

/-- Python iteration over a value: lists yield elements, dicts yield keys,
strings yield characters; other values raise `TypeError`. -/
def pyIter : Value → Except ConfigError (List Value)
  | .list xs => .ok xs
  | .map kvs => .ok (kvs.map fun kv => .str kv.1)
  | .str s => .ok (s.toList.map fun c => .str (String.mk [c]))
  | _ => .error .typeError

/-- `ETLSyncConfig._db_info`: builds a `SyncConfigDB` from one endpoint
section.  Reads `host` with default `"127.0.0.1"` and — as in the source —
the key `"post"` (not `"port"`) with default `5432`; indexes `database`,
`user`, `password` in that order, coercing every value with `str`. -/
def _db_info (item : Value) : Except ConfigError SyncConfigDB := do
  let d ← asMapping item
  let host := pyStr ((dictGet? d "host").getD (.str "127.0.0.1"))
  let port := pyStr ((dictGet? d "post").getD (.int 5432))
  let database ← required d "database"
  let user ← required d "user"
  let password ← required d "password"
  return ⟨host, port, pyStr database, pyStr user, pyStr password⟩

/-- `ETLSyncConfig._table_info`: builds a `SyncConfigTable` from one table
sub-section.  `columns` and `pk` default to `[]` and must be lists;
`schema` defaults to `"public"`; `table` is indexed and may raise
`KeyError`; list elements are coerced with `str`. -/
def _table_info (item : Value) : Except ConfigError SyncConfigTable := do
  let d ← asMapping item
  let columns := (dictGet? d "columns").getD (.list [])
  if columns.isList then pure () else throw (.invalidShape "columns")
  let pk := (dictGet? d "pk").getD (.list [])
  if pk.isList then pure () else throw (.invalidShape "pk")
  let schema := pyStr ((dictGet? d "schema").getD (.str "public"))
  let table ← required d "table"
  return ⟨schema, pyStr table, columns.asList.map pyStr, pk.asList.map pyStr⟩

/-- `ETLSyncConfig._load_environment_config`: resolves the file through the
ambient file system `fs` (mapping a path to the parsed YAML document when
the file exists) and rejects any top-level value that is not a dict. -/
def _load_environment_config (path : String) (fs : String → Option Value) :
    Except ConfigError PyDict :=
  match fs path with
  | none => .error (.fileNotFound ("Конфиг " ++ path ++ " не найден"))
  | some result =>
    if result.isMap then
      .ok (match result with | .map kvs => kvs | _ => [])
    else
      .error (.formatError ("Ошибка формата файла: " ++ path))

/-- The per-item body of the mappings comprehension in `__init__`: each
item's `source` and `destination` sub-sections (defaulting to empty dicts)
are turned into table descriptions, source first. -/
def mappingInfo (item : Value) : Except ConfigError SyncConfigMapping := do
  let d ← asMapping item
  let s ← _table_info ((dictGet? d "source").getD (.map []))
  let t ← _table_info ((dictGet? d "destination").getD (.map []))
  return ⟨s, t⟩

/-- The body of `ETLSyncConfig.__init__` after the file is loaded: checks
the `source` section for truthiness and parses it, then `destination`,
then processes the `mappings` list (default `[]`), in document order. -/
def parseConfig (config : PyDict) : Except ConfigError ETLSyncConfig := do
  let src := (dictGet? config "source").getD (.map [])
  if pyTruthy src then pure () else throw (.missingSection "не указан источник")
  let source ← _db_info src
  let dst := (dictGet? config "destination").getD (.map [])
  if pyTruthy dst then pure () else throw (.missingSection "не указан получатель")
  let destination ← _db_info dst
  let items ← pyIter ((dictGet? config "mappings").getD (.list []))
  let mappings ← items.mapM mappingInfo
  return ⟨source, destination, mappings⟩

/-- Path resolution at the top of `__init__`: an explicit path wins,
otherwise the lowercased enum member name selects the file. -/
def resolvePath (path : Option String) (env : ENV) : String :=
  match path with
  | none => pyLower env.name ++ ".transform.yml"
  | some p => p

/-- The whole of `ETLSyncConfig.__init__`: path resolution, file load,
then section parsing. -/
def initETLSyncConfig (path : Option String) (env : ENV)
    (fs : String → Option Value) : Except ConfigError ETLSyncConfig := do
  let config ← _load_environment_config (resolvePath path env) fs
  parseConfig config

lemma dictGet?_eq_none (d : PyDict) (k : String) (h : hasKey d k = false) :
    dictGet? d k = none := by
  unfold hasKey at h
  cases hd : dictGet? d k with
  | none => rfl
  | some v => rw [hd] at h; simp at h

lemma hasKey_mem_of_onlyKeys (d : PyDict) (ks : List String) (k : String)
    (ho : onlyKeys d ks = true) (hk : hasKey d k = true) : k ∈ ks := by
  induction d with
  | nil => simp [hasKey, dictGet?] at hk
  | cons kv rest ih =>
    simp only [onlyKeys, List.all_cons, Bool.and_eq_true] at ho
    simp only [hasKey, dictGet?] at hk
    by_cases he : k = kv.1
    · subst he
      exact List.elem_iff.mp (by simpa [List.contains] using ho.1)
    · rw [if_neg he] at hk
      exact ih (by simpa [onlyKeys] using ho.2) hk

/-- C7: environment lookup is case-insensitive over the four fixed values
(`test`, `development`, `production`, `local`) and fails with
`InvalidEnvironment` otherwise, so `"LOCAL"`, `"local"` and `"LocaL"` all
resolve to the same member. -/
theorem get_by_value_spec (s : String) :
    ENV.get_by_value s =
      (if pyLower ENV.TEST.value = pyLower s then .ok ENV.TEST
       else if pyLower ENV.DEV.value = pyLower s then .ok ENV.DEV
       else if pyLower ENV.PROD.value = pyLower s then .ok ENV.PROD
       else if pyLower ENV.LOCAL.value = pyLower s then .ok ENV.LOCAL
       else .error (.invalidEnvironment "нет такого значения")) := by
  have hT : pyLower ENV.TEST.value = "test" := by decide
  have hD : pyLower ENV.DEV.value = "development" := by decide
  have hP : pyLower ENV.PROD.value = "production" := by decide
  have hL : pyLower ENV.LOCAL.value = "local" := by decide
  unfold ENV.get_by_value
  simp only [ENV.members, List.find?, hT, hD, hP, hL]
  by_cases h1 : "test" = pyLower s
  · simp [beq_iff_eq, h1]
  have c1 : ("test" == pyLower s) = false := beq_eq_false_iff_ne.mpr h1
  by_cases h2 : "development" = pyLower s
  · simp [beq_iff_eq, c1, h1, h2]
  have c2 : ("development" == pyLower s) = false := beq_eq_false_iff_ne.mpr h2
  by_cases h3 : "production" = pyLower s
  · simp [beq_iff_eq, c1, c2, h1, h2, h3]
  have c3 : ("production" == pyLower s) = false := beq_eq_false_iff_ne.mpr h3
  by_cases h4 : "local" = pyLower s
  · simp [beq_iff_eq, c1, c2, c3, h1, h2, h3, h4]
  · have c4 : ("local" == pyLower s) = false := beq_eq_false_iff_ne.mpr h4
    simp [c1, c2, c3, c4, h1, h2, h3, h4]

/-- C2 counterexample: for the development environment the default path is
`dev.transform.yml`, not `development.transform.yml`. -/
theorem resolvePath_dev_ne :
    resolvePath none ENV.DEV = "dev.transform.yml" ∧
    resolvePath none ENV.DEV ≠ "development.transform.yml" := by
  constructor
  · rfl
  · intro h
    exact absurd h (by decide)

/-- C2 amended: with no explicit path, the resolved path is the lowercased
enum member NAME followed by `.transform.yml`: `test.transform.yml`,
`dev.transform.yml`, `prod.transform.yml` or `local.transform.yml`. -/
theorem resolvePath_default (env : ENV) :
    resolvePath none env =
      (match env with
       | .TEST => "test.transform.yml"
       | .DEV => "dev.transform.yml"
       | .PROD => "prod.transform.yml"
       | .LOCAL => "local.transform.yml") := by
  cases env <;> rfl

/-- C1: at an endpoint section mapping `port` to the number `5433` (with
the required fields present), `_db_info` ignores the `port` key — it reads
`"post"` — and yields `port = "5432"`, not `"5433"` as specified. -/
theorem db_info_port_key_bug :
    _db_info (.map [("port", .int 5433), ("database", .str "d"),
                    ("user", .str "u"), ("password", .str "p")]) =
      .ok ⟨"127.0.0.1", "5432", "d", "u", "p"⟩ ∧
    ("5432" : String) ≠ "5433" := by
  exact ⟨rfl, by decide⟩

@[simp] lemma ok_bind {α β : Type} (a : α) (f : α → Except ConfigError β) :
    (Except.ok a : Except ConfigError α) >>= f = f a := rfl

@[simp] lemma error_bind {α β : Type} (e : ConfigError) (f : α → Except ConfigError β) :
    (Except.error e : Except ConfigError α) >>= f = Except.error e := rfl

@[simp] lemma map_ok {α β : Type} (f : α → β) (a : α) :
    f <$> (Except.ok a : Except ConfigError α) = Except.ok (f a) := rfl

@[simp] lemma map_error {α β : Type} (f : α → β) (e : ConfigError) :
    f <$> (Except.error e : Except ConfigError α) = Except.error e := rfl

@[simp] lemma pure_eq_ok {α : Type} (a : α) :
    (pure a : Except ConfigError α) = Except.ok a := rfl

@[simp] lemma throw_eq_error {α : Type} (e : ConfigError) :
    (throw e : Except ConfigError α) = Except.error e := rfl

example (item : PyDict) (h : hasKey item "database" = false) :
    _db_info (.map item) = .error (.missingField "database") := by
  have hd := dictGet?_eq_none item "database" h
  simp [_db_info, asMapping, required, hd]

example (item : PyDict) (hdb : hasKey item "database" = true)
    (h : hasKey item "user" = false) :
    _db_info (.map item) = .error (.missingField "user") := by
  have hu := dictGet?_eq_none item "user" h
  simp only [hasKey, Option.isSome_iff_exists] at hdb
  obtain ⟨v, hv⟩ := hdb
  simp [_db_info, asMapping, required, hv, hu]

/-- C3: an endpoint section missing any of the required keys fails with a
single `MissingField` error naming the first absent key in the fixed
order `database`, `user`, `password`. -/
theorem db_info_missing_first (item : PyDict) :
    (hasKey item "database" = false →
      _db_info (.map item) = .error (.missingField "database")) ∧
    (hasKey item "database" = true → hasKey item "user" = false →
      _db_info (.map item) = .error (.missingField "user")) ∧
    (hasKey item "database" = true → hasKey item "user" = true →
      hasKey item "password" = false →
      _db_info (.map item) = .error (.missingField "password")) := by
  refine ⟨fun h1 => ?_, fun h1 h2 => ?_, fun h1 h2 h3 => ?_⟩
  · have hd := dictGet?_eq_none item "database" h1
    simp [_db_info, asMapping, required, hd]
  · simp only [hasKey, Option.isSome_iff_exists] at h1
    obtain ⟨vd, hvd⟩ := h1
    have hu := dictGet?_eq_none item "user" h2
    simp [_db_info, asMapping, required, hvd, hu]
  · simp only [hasKey, Option.isSome_iff_exists] at h1 h2
    obtain ⟨vd, hvd⟩ := h1
    obtain ⟨vu, hvu⟩ := h2
    have hp := dictGet?_eq_none item "password" h3
    simp [_db_info, asMapping, required, hvd, hvu, hp]

/-- Witness for C3: a section holding only `database` fails on `user`. -/
theorem db_info_missing_first_witness :
    hasKey [("database", Value.str "d")] "database" = true ∧
    hasKey [("database", Value.str "d")] "user" = false ∧
    _db_info (.map [("database", Value.str "d")]) =
      .error (.missingField "user") :=
  ⟨rfl, rfl, (db_info_missing_first [("database", Value.str "d")]).2.1 rfl rfl⟩

/-- C5: an endpoint section containing exactly the keys `database`, `user`
and `password` parses successfully with the defaults `host = "127.0.0.1"`
and `port = "5432"`. -/
theorem db_info_defaults (item : PyDict)
    (honly : onlyKeys item ["database", "user", "password"] = true)
    (hdb : hasKey item "database" = true)
    (hu : hasKey item "user" = true)
    (hp : hasKey item "password" = true) :
    ∃ cfg, _db_info (.map item) = .ok cfg ∧
      cfg.host = "127.0.0.1" ∧ cfg.port = "5432" := by
  have hhost : hasKey item "host" = false := by
    by_contra hh
    have hm := hasKey_mem_of_onlyKeys item _ "host" honly
      (by simpa using Bool.not_eq_false _ ▸ hh)
    exact absurd hm (by decide)
  have hpost : hasKey item "post" = false := by
    by_contra hh
    have hm := hasKey_mem_of_onlyKeys item _ "post" honly
      (by simpa using Bool.not_eq_false _ ▸ hh)
    exact absurd hm (by decide)
  simp only [hasKey, Option.isSome_iff_exists] at hdb hu hp
  obtain ⟨vd, hvd⟩ := hdb
  obtain ⟨vu, hvu⟩ := hu
  obtain ⟨vp, hvp⟩ := hp
  have h1 := dictGet?_eq_none item "host" hhost
  have h2 := dictGet?_eq_none item "post" hpost
  refine ⟨⟨"127.0.0.1", "5432", pyStr vd, pyStr vu, pyStr vp⟩, ?_, rfl, rfl⟩
  simp [_db_info, asMapping, required, hvd, hvu, hvp, h1, h2]
  exact ⟨rfl, rfl⟩

/-- Witness for C5: the minimal three-key section yields both defaults. -/
theorem db_info_defaults_witness :
    onlyKeys [("database", Value.str "d"), ("user", Value.str "u"),
      ("password", Value.str "p")] ["database", "user", "password"] = true ∧
    ∃ cfg,
      _db_info (.map [("database", Value.str "d"), ("user", Value.str "u"),
        ("password", Value.str "p")]) = .ok cfg ∧
      cfg.host = "127.0.0.1" ∧ cfg.port = "5432" :=
  ⟨rfl, db_info_defaults _ rfl rfl rfl rfl⟩

/-- C6: a present but non-list `columns` entry fails with
`InvalidShape columns`; with `columns` well-shaped, a present but non-list
`pk` entry fails with `InvalidShape pk`; and `columns: []` (with `pk`
well-shaped and `table` present) succeeds with an empty column sequence. -/
theorem table_info_shape (item : PyDict) :
    (∀ v, dictGet? item "columns" = some v → v.isList = false →
      _table_info (.map item) = .error (.invalidShape "columns")) ∧
    (((dictGet? item "columns").getD (.list [])).isList = true →
      ∀ v, dictGet? item "pk" = some v → v.isList = false →
      _table_info (.map item) = .error (.invalidShape "pk")) ∧
    (dictGet? item "columns" = some (.list []) →
      ((dictGet? item "pk").getD (.list [])).isList = true →
      hasKey item "table" = true →
      ∃ t, _table_info (.map item) = .ok t ∧ t.columns = []) := by
  refine ⟨fun v hv hl => ?_, fun hc v hv hl => ?_, fun hc hpk ht => ?_⟩
  · simp [_table_info, asMapping, hv, hl]
  · simp [_table_info, asMapping, hc, hv, hl]
  · simp only [hasKey, Option.isSome_iff_exists] at ht
    obtain ⟨vt, hvt⟩ := ht
    simp [_table_info, asMapping, required, hc, hpk, hvt, Value.asList]
    exact ⟨_, rfl, rfl⟩

/-- Witness for C6: `columns: "not_a_list"` is rejected and `columns: []`
is accepted with no columns. -/
theorem table_info_shape_witness :
    _table_info (.map [("columns", Value.str "not_a_list"),
        ("table", Value.str "t")]) = .error (.invalidShape "columns") ∧
    (∃ t, _table_info (.map [("columns", Value.list []),
        ("table", Value.str "t")]) = .ok t ∧ t.columns = []) :=
  ⟨(table_info_shape _).1 _ rfl rfl, (table_info_shape _).2.2 rfl rfl rfl⟩

/-- C8: a file whose parsed top-level value is not a mapping — a scalar, a
sequence, or an empty/null document — is rejected with `FormatError`. -/
theorem load_config_non_mapping (fs : String → Option Value) (path : String)
    (v : Value) (hv : fs path = some v) (hm : v.isMap = false) :
    _load_environment_config path fs =
      .error (.formatError ("Ошибка формата файла: " ++ path)) := by
  simp [_load_environment_config, hv, hm]

/-- Witness for C8: a file parsing to a bare list is rejected. -/
theorem load_config_non_mapping_witness :
    (fun p => if p = "cfg.yml" then some (Value.list []) else none) "cfg.yml"
      = some (Value.list []) ∧
    _load_environment_config "cfg.yml"
      (fun p => if p = "cfg.yml" then some (Value.list []) else none) =
      .error (.formatError ("Ошибка формата файла: " ++ "cfg.yml")) :=
  ⟨by simp, load_config_non_mapping _ _ (Value.list []) (by simp) rfl⟩

lemma parseConfig_source_falsy (config : PyDict)
    (h : pyTruthy ((dictGet? config "source").getD (.map [])) = false) :
    parseConfig config = .error (.missingSection "не указан источник") := by
  simp [parseConfig, h]

lemma parseConfig_dest_falsy (config : PyDict) (srcDB : SyncConfigDB)
    (h1 : pyTruthy ((dictGet? config "source").getD (.map [])) = true)
    (h2 : _db_info ((dictGet? config "source").getD (.map [])) = .ok srcDB)
    (h3 : pyTruthy ((dictGet? config "destination").getD (.map [])) = false) :
    parseConfig config = .error (.missingSection "не указан получатель") := by
  simp [parseConfig, h1, h2, h3]

/-- C4: a document whose `source` key is absent or maps to an empty
mapping fails with the source `MissingSection`; the same for
`destination` once the source section has been accepted; the source check
comes first, so a document missing both reports the source failure. -/
theorem parseConfig_missing_sections (config : PyDict) :
    (dictGet? config "source" = none →
      parseConfig config = .error (.missingSection "не указан источник")) ∧
    (dictGet? config "source" = some (.map []) →
      parseConfig config = .error (.missingSection "не указан источник")) ∧
    (∀ srcDB, pyTruthy ((dictGet? config "source").getD (.map [])) = true →
      _db_info ((dictGet? config "source").getD (.map [])) = .ok srcDB →
      (dictGet? config "destination" = none ∨
        dictGet? config "destination" = some (.map [])) →
      parseConfig config = .error (.missingSection "не указан получатель")) := by
  refine ⟨fun hs => ?_, fun hs => ?_, fun srcDB h1 h2 hd => ?_⟩
  · exact parseConfig_source_falsy config (by simp [hs, pyTruthy])
  · exact parseConfig_source_falsy config (by simp [hs, pyTruthy])
  · refine parseConfig_dest_falsy config srcDB h1 h2 ?_
    rcases hd with hd | hd <;> simp [hd, pyTruthy]

/-- Witness for C4: the empty document reports the missing source, and a
document with only a valid source reports the missing destination. -/
theorem parseConfig_missing_sections_witness :
    parseConfig [] = .error (.missingSection "не указан источник") ∧
    parseConfig [("source", Value.map [("database", Value.str "d"),
        ("user", Value.str "u"), ("password", Value.str "p")])] =
      .error (.missingSection "не указан получатель") :=
  ⟨(parseConfig_missing_sections []).1 rfl,
   (parseConfig_missing_sections _).2.2
     ⟨"127.0.0.1", "5432", "d", "u", "p"⟩ rfl rfl (Or.inl rfl)⟩

/-- C9: the section check is a truthiness test: any falsy value for
`source` (or, after a valid source, for `destination`) — empty mapping,
empty list, empty string, null, `0` or `false` — triggers the same
`MissingSection` error as an absent key. -/
theorem parseConfig_truthiness (config : PyDict) (v : Value)
    (hv : v = .map [] ∨ v = .list [] ∨ v = .str "" ∨ v = .null ∨
      v = .int 0 ∨ v = .bool false) :
    (dictGet? config "source" = some v →
      parseConfig config = .error (.missingSection "не указан источник")) ∧
    (dictGet? config "source" = none →
      parseConfig config = .error (.missingSection "не указан источник")) ∧
    (∀ srcDB, pyTruthy ((dictGet? config "source").getD (.map [])) = true →
      _db_info ((dictGet? config "source").getD (.map [])) = .ok srcDB →
      dictGet? config "destination" = some v →
      parseConfig config = .error (.missingSection "не указан получатель")) := by
  have hfalsy : pyTruthy v = false := by
    rcases hv with h | h | h | h | h | h <;> subst h <;> rfl
  refine ⟨fun hs => ?_, fun hs => ?_, fun srcDB h1 h2 hd => ?_⟩
  · exact parseConfig_source_falsy config (by simp [hs, hfalsy])
  · exact parseConfig_source_falsy config (by simp [hs, pyTruthy])
  · exact parseConfig_dest_falsy config srcDB h1 h2 (by simp [hd, hfalsy])

/-- Witness for C9: `source: 0` is reported as a missing source section. -/
theorem parseConfig_truthiness_witness :
    parseConfig [("source", Value.int 0)] =
      .error (.missingSection "не указан источник") :=
  (parseConfig_truthiness [("source", Value.int 0)] (Value.int 0)
    (Or.inr (Or.inr (Or.inr (Or.inr (Or.inl rfl)))))).1 rfl

lemma table_info_ok_hasKey (d : PyDict) (t : SyncConfigTable)
    (ht : _table_info (.map d) = .ok t) : hasKey d "table" = true := by
  by_contra hk
  have hn := dictGet?_eq_none d "table" (by simpa using hk)
  cases hc : ((dictGet? d "columns").getD (.list [])).isList with
  | false => simp [_table_info, asMapping, hc] at ht
  | true =>
    cases hp : ((dictGet? d "pk").getD (.list [])).isList with
    | false => simp [_table_info, asMapping, hc, hp] at ht
    | true => simp [_table_info, asMapping, hc, hp, required, hn] at ht

/-- C10: a mappings entry without a `source` (or, once the source table
parses, without a `destination`) sub-section defaults it to an empty dict,
which then fails with `MissingField` for `table`; conversely any
successfully parsed table section explicitly contained a `table` key. -/
theorem mapping_missing_table (entry : PyDict) :
    (hasKey entry "source" = false →
      mappingInfo (.map entry) = .error (.missingField "table")) ∧
    (∀ s, _table_info ((dictGet? entry "source").getD (.map [])) = .ok s →
      hasKey entry "destination" = false →
      mappingInfo (.map entry) = .error (.missingField "table")) ∧
    (∀ v t, _table_info v = .ok t →
      ∃ d, v = .map d ∧ hasKey d "table" = true) := by
  have h0 : _table_info (.map ([] : PyDict)) = .error (.missingField "table") := rfl
  refine ⟨fun h => ?_, fun s hs h => ?_, fun v t ht => ?_⟩
  · have hd := dictGet?_eq_none entry "source" h
    simp [mappingInfo, asMapping, hd, h0]
  · have hd := dictGet?_eq_none entry "destination" h
    simp [mappingInfo, asMapping, hs, hd, h0]
  · cases v with
    | map d => exact ⟨d, rfl, table_info_ok_hasKey d t ht⟩
    | str s => simp [_table_info, asMapping] at ht
    | int n => simp [_table_info, asMapping] at ht
    | bool b => simp [_table_info, asMapping] at ht
    | null => simp [_table_info, asMapping] at ht
    | list xs => simp [_table_info, asMapping] at ht

/-- Witness for C10: an entry with only a `destination` sub-section fails
with `MissingField table`, and a parsed table section has a `table` key. -/
theorem mapping_missing_table_witness :
    mappingInfo (.map [("destination", Value.map [("table", Value.str "t")])]) =
      .error (.missingField "table") ∧
    ∃ d, (Value.map [("table", Value.str "t")]) = Value.map d ∧
      hasKey d "table" = true :=
  ⟨(mapping_missing_table _).1 rfl,
   (mapping_missing_table []).2.2 (Value.map [("table", Value.str "t")])
     ⟨"public", "t", [], []⟩ rfl⟩
